import Mathlib

/-!
Shallow embedding of the alert-data transformation layer of
`src/karma_mcp/server.py` (the karma-mcp repository), together with proofs
about the behaviour of its query/filter operations.

Modelling conventions:
* Python dicts that are only read through `d.get(k, default)` are modelled as
  `Option`-valued record fields read through `Option.getD`;
  `"cluster" in am` presence checks are modelled by the `Option` being `some`.
* Label / annotation objects are `{name, value}` records with both fields
  present (the upstream data shape; `label.get("name", "")` never misses).
* Python dict literals built by repeated assignment are modelled as
  association lists with an in-place upsert preserving insertion order,
  exactly like CPython dicts.
* The HTTP boundary is modelled by an explicit outcome value: an exception
  raised by the client (connection or parse failure) or a response with a
  status code and decoded body.  Every operation is a total function from
  that outcome to the string it returns.
-/

namespace Karma

/-- Python `str.lower()` restricted to the ASCII case mapping used by the
strings this code compares (`Char.toLower` lowers A–Z). -/
def lowerStr (s : String) : String := String.mk (s.data.map Char.toLower)

/-- Python `str.capitalize()`: first character upper-cased, rest lower-cased. -/
def capitalizeStr (s : String) : String :=
  match s.data with
  | [] => ""
  | c :: cs => String.mk (c.toUpper :: cs.map Char.toLower)

/-- Substring search on character lists: `listContainsSub hay needle` is true
iff `needle` occurs contiguously inside `hay` (Python `needle in hay`). -/
def listContainsSub : List Char → List Char → Bool
  | [], needle => needle.isEmpty
  | c :: t, needle => needle.isPrefixOf (c :: t) || listContainsSub t needle

/-- Python `needle in hay` on strings (substring containment). -/
def strContainsSub (hay needle : String) : Bool :=
  listContainsSub hay.data needle.data

/-- Python `s * n` for strings (`"=" * 50`). -/
def repeatStr (s : String) (n : Nat) : String := String.join (List.replicate n s)

/-- Python `f"{n:2d}"`: decimal, right-aligned in width 2. -/
def padNat2 (n : Nat) : String :=
  let s := toString n
  if s.length < 2 then " " ++ s else s

/-- Python `s[:n] + "..." if len(s) > n else s` truncation pattern. -/
def pyTrunc (s : String) (n : Nat) : String :=
  if s.length > n then s.take n ++ "..." else s

/-- Python pluralization suffix: s when n > 1, else empty. -/
def pluralS (n : Nat) : String := if n > 1 then "s" else ""

/-- Python pluralization suffix: s when n != 1, else empty. -/
def pluralNe1 (n : Nat) : String := if n ≠ 1 then "s" else ""

/-- One `{name, value}` label or annotation object. -/
structure Label where
  name : String
  value : String
deriving DecidableEq

/-- One alertmanager-source record attached to an alert; only the keys this
layer reads (`cluster`, `name`) are modelled, as optional since the code
checks `"cluster" in am` and uses `am.get(..)` defaults. -/
structure AmSource where
  cluster : Option String
  name : Option String
deriving DecidableEq

/-- One alert object, with the keys read by the code. -/
structure Alert where
  state : Option String
  labels : List Label
  annotations : List Label
  startsAt : Option String
  receiver : Option String
  alertmanager : List AmSource
deriving DecidableEq

/-- One alert group: group-level labels plus its alerts. -/
structure AlertGroup where
  id : Option String
  labels : List Label
  alerts : List Alert
  totalAlerts : Option Nat
deriving DecidableEq

/-- One grid (only its `alertGroups` key is read). -/
structure Grid where
  alertGroups : List AlertGroup
deriving DecidableEq

/-- One `upstreams.instances` entry. -/
structure UpstreamInstance where
  cluster : Option String
  publicURI : Option String
  version : Option String
  error : Option String
  name : Option String
deriving DecidableEq

/-- One decoded `/alerts.json` response body (an alert snapshot). -/
structure Snapshot where
  grids : List Grid
  upstreams : List UpstreamInstance
deriving DecidableEq

/-- Lookup in an association list, first (= unique) binding wins:
Python `d[k]` / `k in d` probe. -/
def dictGet? {α : Type} : List (String × α) → String → Option α
  | [], _ => none
  | (k0, v0) :: rest, k => if k0 = k then some v0 else dictGet? rest k

/-- Python `d.get(k, default)`. -/
def dictGetD {α : Type} (d : List (String × α)) (k : String) (default : α) : α :=
  (dictGet? d k).getD default

/-- Python `d[k] = v`: replace the value at an existing key in place
(preserving its position), else append a new binding. -/
def dictUpsert {α : Type} : List (String × α) → String → α → List (String × α)
  | [], k, v => [(k, v)]
  | (k0, v0) :: rest, k, v =>
      if k0 = k then (k, v) :: rest else (k0, v0) :: dictUpsert rest k v

/-- The `{label.get("name",""): label.get("value","")}` dict built from a
label list by repeated assignment (later duplicates overwrite). -/
def labelsToDict (labels : List Label) : List (String × String) :=
  labels.foldl (fun d l => dictUpsert d l.name l.value) []

/-- Translation of `extract_label_value(labels, name, default)`: value of the first label
whose `name` matches (case-sensitively), else the default.  The Python
signature defaults `default` to `"unknown"`; call sites here always pass it
explicitly. -/
def extract_label_value : List Label → String → String → String
  | [], _, default => default
  | l :: rest, name, default =>
      if l.name = name then l.value else extract_label_value rest name default

/-- The metadata record produced by `extract_alert_metadata`. -/
structure AlertMetadata where
  alertname : String
  severity : String
  «namespace» : String
  cluster : String
  state : String
  starts_at : String
  group_id : String
  receiver : String
deriving DecidableEq

/-- The `cluster` derivation inside `extract_alert_metadata`: the `cluster`
field of the first alertmanager entry that has one, else `"unknown"`. -/
def firstClusterOf : List AmSource → String
  | [] => "unknown"
  | am :: rest =>
      match am.cluster with
      | some c => c
      | none => firstClusterOf rest

/-- Translation of `extract_alert_metadata(group, alert)`. -/
def extract_alert_metadata (group : AlertGroup) (alert : Alert) : AlertMetadata :=
  let severity0 := extract_label_value group.labels "severity" "unknown"
  { alertname := extract_label_value group.labels "alertname" "Unknown"
    severity :=
      if severity0 = "unknown" then extract_label_value alert.labels "severity" "none"
      else severity0
    «namespace» := extract_label_value alert.labels "namespace" "N/A"
    cluster := firstClusterOf alert.alertmanager
    state := alert.state.getD "unknown"
    starts_at := alert.startsAt.getD ""
    group_id := group.id.getD ""
    receiver := alert.receiver.getD "unknown" }

/-- Translation of `extract_annotations(alert)`: annotation list flattened to a dict. -/
def extract_annotations (alert : Alert) : List (String × String) :=
  alert.annotations.foldl (fun d a => dictUpsert d a.name a.value) []

/-- The per-alert condition of `filter_alerts_by_cluster`: some alertmanager
source has `am.get("cluster", "").lower() == cluster_name.lower()`. -/
def alertMatchesCluster (cluster_name : String) (alert : Alert) : Bool :=
  alert.alertmanager.any fun am => lowerStr (am.cluster.getD "") == lowerStr cluster_name

/-- Translation of `filter_alerts_by_cluster(alerts_data, cluster_name)`: keep the alerts
matching the cluster, drop groups (and then grids) left empty, and update
`totalAlerts` on each surviving group. -/
def filter_alerts_by_cluster (data : Snapshot) (cluster_name : String) : Snapshot :=
  let filtered_grids := data.grids.filterMap fun grid =>
    let filtered_groups := grid.alertGroups.filterMap fun group =>
      let filtered_alerts := group.alerts.filter (alertMatchesCluster cluster_name)
      if filtered_alerts.isEmpty then none
      else some { group with
                    alerts := filtered_alerts
                    totalAlerts := some filtered_alerts.length }
    if filtered_groups.isEmpty then none
    else some { grid with alertGroups := filtered_groups }
  { data with grids := filtered_grids }

/-- The per-cluster record built by `extract_cluster_info` from one
upstream instance. -/
structure ClusterInfo where
  uri : String
  version : String
  status : String
  instance_name : String
deriving DecidableEq

/-- Translation of `extract_cluster_info(alerts_data)`: the upstream-instance dict keyed by
cluster name, and the per-cluster count of (alert, alertmanager-source)
attributions. -/
def extract_cluster_info (data : Snapshot) :
    List (String × ClusterInfo) × List (String × Nat) :=
  let clusters := data.upstreams.foldl (fun d inst =>
    let cluster_error := inst.error.getD ""
    dictUpsert d (inst.cluster.getD "unknown")
      { uri := inst.publicURI.getD "N/A"
        version := inst.version.getD "N/A"
        status := if cluster_error = "" then "healthy" else "error: " ++ cluster_error
        instance_name := inst.name.getD "N/A" }) []
  let counts := data.grids.foldl (fun c0 grid =>
    grid.alertGroups.foldl (fun c1 group =>
      group.alerts.foldl (fun c2 alert =>
        alert.alertmanager.foldl (fun c3 am =>
          let cl := am.cluster.getD "unknown"
          dictUpsert c3 cl (dictGetD c3 cl 0 + 1)) c2) c1) c0) []
  (clusters, counts)

/-!
Decorative glyph strings.  The source file stores its emoji in a
double-encoded (mojibake) form; the exact character sequences present in the
file are reproduced here via escapes.
-/

/-- The glyph before "Karma is running". -/
def checkMark : String := "\u00e2\u0153\u201c"

/-- The glyph before "Karma responded with code". -/
def warnSign : String := "\u00e2\u0161\u00a0"

/-- The glyph before "Error connecting to Karma" in check_karma. -/
def ballotX : String := "\u00e2\u0153\u2014"

/-- The bullet used in alert listings. -/
def bulletChar : String := "\u00e2\u20ac\u00a2"

/-- The magnifier glyph. -/
def searchGlyph : String := "\u00f0\u0178\u201d"

/-- The office-building glyph. -/
def officeGlyph : String := "\u00f0\u0178\u00a2"

/-- The clipboard glyph. -/
def clipboardGlyph : String := "\u00f0\u0178\u201c\u2039"

/-- The bar-chart glyph. -/
def chartGlyph : String := "\u00f0\u0178\u201c\u0160"

/-- The rising-graph glyph. -/
def graphGlyph : String := "\u00f0\u0178\u201c\u02c6"

/-- The green check glyph for healthy clusters. -/
def healthyGlyph : String := "\u00e2\u0153\u2026"

/-- The red cross glyph for unhealthy clusters. -/
def unhealthyGlyph : String := "\u00e2\u0152"

/-- The construction glyph before per-cluster sections. -/
def buildingGlyph : String := "\u00f0\u0178\u2014\u00ef\u00b8"

/-- The fire glyph for active alerts. -/
def fireGlyph : String := "\u00f0\u0178\u201d\u00a5"

/-- The muted-bell glyph for suppressed alerts. -/
def bellGlyph : String := "\u00f0\u0178\u201d\u2022"

/-- Translation of `KARMA_URL` default (`os.getenv("KARMA_URL", "http://localhost:8080")`). -/
def KARMA_URL : String := "http://localhost:8080"

/-- Outcome of the `POST /alerts.json` round trip: either the client raised
(connection or body-parse failure, both caught by the same `except` block)
or a response with a status code and decoded body arrived. -/
inductive HttpOutcome where
  | connectError (msg : String)
  | response (code : Nat) (body : Snapshot)
deriving DecidableEq

/-- Outcome of the `GET /health` round trip used by check_karma. -/
inductive HealthOutcome where
  | connectError (msg : String)
  | response (code : Nat)
deriving DecidableEq

/-- Translation of `fetch_karma_alerts()`: the Python function returns a `(data, error)`
pair with exactly one component non-None; that is modelled as `Except`. -/
def fetch_karma_alerts : HttpOutcome → Except String Snapshot
  | .connectError msg => .error ("Error connecting to Karma: " ++ msg)
  | .response code body =>
      if code ≠ 200 then .error ("Error fetching alerts: code " ++ toString code)
      else if body.grids.isEmpty then .error "No active alerts"
      else .ok body

/-- Translation of `check_karma()`. -/
def check_karma : HealthOutcome → String
  | .connectError msg => ballotX ++ " Error connecting to Karma: " ++ msg
  | .response code =>
      if code = 200 then checkMark ++ " Karma is running at " ++ KARMA_URL
      else warnSign ++ " Karma responded with code " ++ toString code

/-- Every (group, alert) pair in encounter order; its length is the
`total_alerts` accumulated by list_alerts. -/
def groupAlertPairs (data : Snapshot) : List (AlertGroup × Alert) :=
  data.grids.flatMap fun g => g.alertGroups.flatMap fun gr => gr.alerts.map fun a => (gr, a)

/-- One bullet entry of list_alerts. -/
def listAlertsLine (gr : AlertGroup) (a : Alert) : String :=
  let m := extract_alert_metadata gr a
  bulletChar ++ " " ++ m.alertname ++ "\n  Severity: " ++ m.severity ++
    "\n  State: " ++ m.state ++ "\n  Namespace: " ++ m.«namespace» ++ "\n\n"

/-- Translation of `list_alerts()`: counts every alert but prints at most 10 per group. -/
def list_alerts (o : HttpOutcome) : String :=
  match fetch_karma_alerts o with
  | .error e => e
  | .ok data =>
      let total_alerts := (groupAlertPairs data).length
      let alert_text := String.join (data.grids.flatMap fun g => g.alertGroups.flatMap fun gr =>
        (gr.alerts.take 10).map (listAlertsLine gr))
      if total_alerts = 0 then "No active alerts"
      else "Found " ++ toString total_alerts ++ " alerts:\n\n" ++ alert_text

/-- The metadata records of all alerts, in encounter order. -/
def metadataList (data : Snapshot) : List AlertMetadata :=
  (groupAlertPairs data).map fun p => extract_alert_metadata p.1 p.2

/-- The `severity_counts[sev]` tally of format_alert_summary (only the four
fixed keys critical/warning/info/none are ever non-zero there). -/
def countSeverity (data : Snapshot) (sev : String) : Nat :=
  ((metadataList data).filter fun m => m.severity == sev).length

/-- The `state_counts[st]` tally of format_alert_summary (exact match on the
raw state string, keys active/suppressed). -/
def countState (data : Snapshot) (st : String) : Nat :=
  ((metadataList data).filter fun m => m.state == st).length

/-- The `cluster_counts` dict of format_alert_summary. -/
def clusterCounts (data : Snapshot) : List (String × Nat) :=
  (metadataList data).foldl (fun d m => dictUpsert d m.cluster (dictGetD d m.cluster 0 + 1)) []

/-- Translation of `format_alert_summary(alerts_data, include_clusters)`.  The by-cluster
section sorts by descending count; order among equal counts is not relied
upon by anything proved here. -/
def format_alert_summary (data : Snapshot) (include_clusters : Bool) : String :=
  let total_alerts := (groupAlertPairs data).length
  let sevPart := String.join (["critical", "warning", "info", "none"].map fun k =>
    let c := countSeverity data k
    if c > 0 then "  " ++ capitalizeStr k ++ ": " ++ toString c ++ "\n" else "")
  let statePart := String.join (["active", "suppressed"].map fun k =>
    let c := countState data k
    if c > 0 then "  " ++ capitalizeStr k ++ ": " ++ toString c ++ "\n" else "")
  let base := "Total Alerts: " ++ toString total_alerts ++ "\n" ++
    "\nBy Severity:\n" ++ sevPart ++ "\nBy State:\n" ++ statePart
  let cc := clusterCounts data
  if include_clusters && !cc.isEmpty then
    base ++ "\nBy Cluster:\n" ++
      String.join ((cc.insertionSort fun a b => b.2 ≤ a.2).map fun p =>
        "  " ++ p.1 ++ ": " ++ toString p.2 ++ "\n")
  else base

/-- The `alert_type_counts` dict of get_alerts_summary. -/
def alertTypeCounts (data : Snapshot) : List (String × Nat) :=
  data.grids.foldl (fun d0 g => g.alertGroups.foldl (fun d gr =>
    let alertname := extract_label_value gr.labels "alertname" "Unknown"
    dictUpsert d alertname (dictGetD d alertname 0 + gr.alerts.length)) d0) []

/-- Translation of `get_alerts_summary()`. -/
def get_alerts_summary (o : HttpOutcome) : String :=
  match fetch_karma_alerts o with
  | .error e => e
  | .ok data =>
      let summary := format_alert_summary data true
      let atc := alertTypeCounts data
      if atc.isEmpty then summary
      else summary ++ "\n" ++ searchGlyph ++ " Top Alert Types:\n" ++
        String.join (((atc.insertionSort fun a b => b.2 ≤ a.2).take 10).map fun p =>
          "  " ++ bulletChar ++ " " ++ p.1 ++ ": " ++ toString p.2 ++ "\n")

/-- The per-cluster entries enumerated by list_clusters: the upstream
clusters dict sorted by name, each joined with its alert count
(`cluster_alert_counts.get(name, 0)`). -/
def list_clusters_entries (data : Snapshot) : List (String × ClusterInfo × Nat) :=
  let info := extract_cluster_info data
  (info.1.insertionSort fun a b => a.1 ≤ b.1).map fun p =>
    (p.1, p.2, dictGetD info.2 p.1 0)

/-- Translation of `list_clusters()`. -/
def list_clusters (o : HttpOutcome) : String :=
  match fetch_karma_alerts o with
  | .error e => e
  | .ok data =>
      let info := extract_cluster_info data
      let blocks := String.join ((list_clusters_entries data).map fun e =>
        let status_icon := if strContainsSub e.2.1.status "healthy" then healthyGlyph else unhealthyGlyph
        clipboardGlyph ++ " " ++ e.1 ++ "\n   Instance: " ++ e.2.1.instance_name ++
          "\n   Status: " ++ status_icon ++ " " ++ e.2.1.status ++
          "\n   Alertmanager: " ++ e.2.1.version ++
          "\n   Active Alerts: " ++ toString e.2.2 ++
          "\n   URI: " ++ e.2.1.uri ++ "\n\n")
      officeGlyph ++ " Available Kubernetes Clusters\n" ++ repeatStr "=" 50 ++ "\n\n" ++
        blocks ++ chartGlyph ++ " Summary:\n   Total Clusters: " ++ toString info.1.length ++
        "\n   Total Alert Instances: " ++ toString (info.2.map fun p => p.2).sum

/-- Translation of `list_alerts_by_cluster(cluster_name)`. -/
def list_alerts_by_cluster (cluster_name : String) (o : HttpOutcome) : String :=
  match fetch_karma_alerts o with
  | .error e => e
  | .ok data =>
      let filtered_data := filter_alerts_by_cluster data cluster_name
      let pairs := groupAlertPairs filtered_data
      if pairs.length = 0 then "No alerts found for cluster: " ++ cluster_name
      else
        officeGlyph ++ " Alerts in cluster \x27" ++ cluster_name ++ "\x27\n" ++
          repeatStr "=" 50 ++ "\n\n" ++
          "Found " ++ toString pairs.length ++ " alerts:\n\n" ++
          String.join (pairs.enum.map fun q =>
            let m := extract_alert_metadata q.2.1 q.2.2
            let inst := extract_label_value q.2.2.labels "instance" "unknown"
            padNat2 (q.1 + 1) ++ ". " ++ m.alertname ++
              "\n    Severity: " ++ m.severity ++
              "\n    State: " ++ m.state ++
              "\n    Namespace: " ++ m.«namespace» ++
              "\n    Cluster: " ++ m.cluster ++ "\n" ++
              (if inst != "unknown" then "    Instance: " ++ inst ++ "\n" else "") ++ "\n")

/-- Translation of `get_alert_details(alert_name)`. -/
def get_alert_details (alert_name : String) (o : HttpOutcome) : String :=
  match fetch_karma_alerts o with
  | .error e => e
  | .ok data =>
      let matching := data.grids.flatMap fun g => g.alertGroups.flatMap fun gr =>
        if lowerStr (extract_label_value gr.labels "alertname" "unknown") == lowerStr alert_name
        then gr.alerts.map fun a => (gr, a) else []
      if matching.isEmpty then "No alert found with name: " ++ alert_name
      else
        searchGlyph ++ " Found " ++ toString matching.length ++ " instance(s) of " ++
          alert_name ++ ":\n\n" ++
          String.join (matching.enum.map fun q =>
            let m := extract_alert_metadata q.2.1 q.2.2
            let anns := extract_annotations q.2.2
            let inst := extract_label_value q.2.2.labels "instance" "unknown"
            clipboardGlyph ++ " Instance " ++ toString (q.1 + 1) ++ ":\n  State: " ++ m.state ++
              "\n  Severity: " ++ m.severity ++
              "\n  Namespace: " ++ m.«namespace» ++
              "\n  Cluster: " ++ m.cluster ++ "\n" ++
              (if inst != "unknown" then "  Instance: " ++ inst ++ "\n" else "") ++
              (match dictGet? anns "description" with
               | some d => "  Description: " ++ pyTrunc d 200 ++ "\n"
               | none => "") ++
              (match dictGet? anns "summary" with
               | some s => "  Summary: " ++ s ++ "\n"
               | none => "") ++ "\n")

/-- One entry of the `active_alerts` / `suppressed_alerts` lists built by
list_active_alerts and list_suppressed_alerts (identical loops modulo the
state they select). -/
structure StateRecord where
  name : String
  state : String
  severity : String
  «namespace» : String
  «instance» : String
  starts_at : String
deriving DecidableEq

/-- The record list built by list_active_alerts (`target = "active"`) and
list_suppressed_alerts (`target = "suppressed"`): alerts whose
`alert.get("state", "unknown").lower()` equals the target. -/
def stateRecords (target : String) (data : Snapshot) : List StateRecord :=
  data.grids.flatMap fun g => g.alertGroups.flatMap fun gr =>
    let gdict := labelsToDict gr.labels
    let alertname := dictGetD gdict "alertname" "unknown"
    (gr.alerts.filter fun a => lowerStr (a.state.getD "unknown") == target).map fun a =>
      let adict := labelsToDict a.labels
      { name := alertname
        state := a.state.getD "unknown"
        severity := dictGetD gdict "severity" "unknown"
        «namespace» := dictGetD adict "namespace" "N/A"
        «instance» := dictGetD adict "instance" "N/A"
        starts_at := a.startsAt.getD "N/A" }

/-- The `alert_groups` dict grouping records by alert name (insertion order,
appends preserved). -/
def groupByName (records : List StateRecord) : List (String × List StateRecord) :=
  records.foldl (fun d r => dictUpsert d r.name (dictGetD d r.name [] ++ [r])) []

/-- One per-alert-name block of the list_active/list_suppressed output.
`alerts[0]` is total in Python only because every group is non-empty by
construction; the empty case here returns the severity of no record. -/
def stateGroupBlock (glyph : String) (p : String × List StateRecord) : String :=
  let alerts := p.2
  glyph ++ " " ++ p.1 ++ " (" ++ toString alerts.length ++ " instance" ++
    pluralS alerts.length ++ ")\n" ++
  "   Severity: " ++ (match alerts with | [] => "" | a :: _ => a.severity) ++ "\n" ++
  String.join ((alerts.take 5).map fun a =>
    "   " ++ bulletChar ++ " " ++ a.«instance» ++ " (" ++ a.«namespace» ++ ")\n") ++
  (if alerts.length > 5 then
    "   " ++ bulletChar ++ " ... and " ++ toString (alerts.length - 5) ++ " more\n"
   else "") ++ "\n"

/-- Translation of `list_active_alerts()` (does not go through fetch_karma_alerts; it
checks the status code and catches exceptions itself). -/
def list_active_alerts (o : HttpOutcome) : String :=
  match o with
  | .connectError msg => "Error connecting to Karma: " ++ msg
  | .response code data =>
      if code = 200 then
        let active := stateRecords "active" data
        if active.isEmpty then "No active alerts found."
        else
          "Active Alerts (Non-Suppressed)\n" ++ repeatStr "=" 50 ++ "\n\n" ++
            String.join (((groupByName active).insertionSort fun a b => a.1 ≤ b.1).map
              (stateGroupBlock fireGlyph)) ++
            "Total Active Alerts: " ++ toString active.length
      else "Error fetching alerts: code " ++ toString code

/-- Translation of `list_suppressed_alerts()`. -/
def list_suppressed_alerts (o : HttpOutcome) : String :=
  match o with
  | .connectError msg => "Error connecting to Karma: " ++ msg
  | .response code data =>
      if code = 200 then
        let suppressed := stateRecords "suppressed" data
        if suppressed.isEmpty then "No suppressed alerts found."
        else
          "Suppressed Alerts\n" ++ repeatStr "=" 50 ++ "\n\n" ++
            String.join (((groupByName suppressed).insertionSort fun a b => a.1 ≤ b.1).map
              (stateGroupBlock bellGlyph)) ++
            "Total Suppressed Alerts: " ++ toString suppressed.length
      else "Error fetching alerts: code " ++ toString code

/-- The `valid_states` list of get_alerts_by_state. -/
def validStates : List String := ["active", "suppressed", "all"]

/-- The validation-failure message of get_alerts_by_state. -/
def invalidStateMsg (state : String) : String :=
  "Invalid state \x27" ++ state ++ "\x27. Valid options: " ++
    String.intercalate ", " validStates

/-- Translation of `get_alerts_by_state(state)`: validation happens before any fetch, so
the invalid branch does not consume the HTTP outcome at all. -/
def get_alerts_by_state (state : String) (o : HttpOutcome) : String :=
  if validStates.contains (lowerStr state) = false then invalidStateMsg state
  else if lowerStr state = "active" then list_active_alerts o
  else if lowerStr state = "suppressed" then list_suppressed_alerts o
  else list_alerts o

/-- The skip test applied to each alertmanager source in
get_alert_details_multi_cluster and search_alerts_by_container:
`if cluster_filter and cluster_filter.lower() not in cluster.lower(): continue`.
A source is kept iff this returns true. -/
def sourcePassesClusterFilter (cluster_filter cluster : String) : Bool :=
  !(cluster_filter != "" && !(strContainsSub (lowerStr cluster) (lowerStr cluster_filter)))

/-- The source that produces the single record of an alert: the loop over
`alert.get("alertmanager", [])` skips filtered sources and breaks right
after the first one it accepts. -/
def firstPassingSource (cluster_filter : String) : List AmSource → Option AmSource
  | [] => none
  | am :: rest =>
      if sourcePassesClusterFilter cluster_filter (am.cluster.getD "unknown") then some am
      else firstPassingSource cluster_filter rest

/-- One entry of `matching_alerts` in get_alert_details_multi_cluster. -/
structure MCRecord where
  alert_name : String
  cluster : String
  state : String
  severity : String
  «namespace» : String
  «instance» : String
  pod : String
  container : String
  starts_at : String
  alertmanager_name : String
  annotations : List (String × String)
  labels : List (String × String)
deriving DecidableEq

/-- The record appended for one accepted (alert, source) iteration of
get_alert_details_multi_cluster. -/
def mcRecordOf (gdict : List (String × String)) (alert : Alert) (am : AmSource) : MCRecord :=
  let adict := labelsToDict alert.labels
  { alert_name := dictGetD gdict "alertname" "unknown"
    cluster := am.cluster.getD "unknown"
    state := alert.state.getD "unknown"
    severity := dictGetD gdict "severity" "unknown"
    «namespace» := dictGetD adict "namespace" "N/A"
    «instance» := dictGetD adict "instance" "N/A"
    pod := dictGetD adict "pod" "N/A"
    container := dictGetD adict "container" "N/A"
    starts_at := alert.startsAt.getD "N/A"
    alertmanager_name := am.name.getD "N/A"
    annotations := extract_annotations alert
    labels := adict }

/-- Records contributed by one alert in get_alert_details_multi_cluster:
one for the first source passing the cluster filter (the loop breaks after
appending), none when no source passes. -/
def mcAlertRecords (cluster_filter : String) (gdict : List (String × String))
    (alert : Alert) : List MCRecord :=
  match firstPassingSource cluster_filter alert.alertmanager with
  | none => []
  | some am => [mcRecordOf gdict alert am]

/-- The full `matching_alerts` list of get_alert_details_multi_cluster. -/
def multiClusterMatches (data : Snapshot) (alert_name cluster_filter : String) :
    List MCRecord :=
  data.grids.flatMap fun g => g.alertGroups.flatMap fun gr =>
    let gdict := labelsToDict gr.labels
    if lowerStr (dictGetD gdict "alertname" "") == lowerStr alert_name then
      gr.alerts.flatMap (mcAlertRecords cluster_filter gdict)
    else []

/-- One `cluster_stats` entry (keys total / active / suppressed). -/
structure ClusterStats where
  total : Nat
  active : Nat
  suppressed : Nat
deriving DecidableEq

/-- The `cluster_stats` dict.  In the source the stats update and the record
append happen in the same loop iteration (both before the `break`), so the
dict is exactly a fold over the (cluster, state) projections of the records.
The `if state in cluster_stats[cluster]` membership test ranges over the
keys total / active / suppressed. -/
def foldClusterStats (entries : List (String × String)) : List (String × ClusterStats) :=
  entries.foldl (fun d e =>
    let s0 := dictGetD d e.1 ⟨0, 0, 0⟩
    let s1 := { s0 with total := s0.total + 1 }
    let st := lowerStr e.2
    let s2 :=
      if st = "total" then { s1 with total := s1.total + 1 }
      else if st = "active" then { s1 with active := s1.active + 1 }
      else if st = "suppressed" then { s1 with suppressed := s1.suppressed + 1 }
      else s1
    dictUpsert d e.1 s2) []

/-- One per-cluster section of the get_alert_details_multi_cluster output. -/
def mcClusterBlock (p : String × List MCRecord) : String :=
  buildingGlyph ++ "  Cluster: " ++ p.1 ++ "\n" ++ repeatStr "-" 40 ++ "\n" ++
  String.join ((p.2.take 10).enum.map fun q =>
    let a := q.2
    let state_glyph := if lowerStr a.state == "active" then fireGlyph else bellGlyph
    "  " ++ toString (q.1 + 1) ++ ". " ++ state_glyph ++ " " ++ a.alert_name ++ "\n" ++
    "      State: " ++ a.state ++ "\n" ++
    "      Started: " ++ a.starts_at ++ "\n" ++
    (if a.«namespace» != "N/A" then "      Namespace: " ++ a.«namespace» ++ "\n" else "") ++
    (if a.«instance» != "N/A" then "      Instance: " ++ a.«instance» ++ "\n" else "") ++
    (if a.pod != "N/A" then "      Pod: " ++ a.pod ++ "\n" else "") ++
    (if a.container != "N/A" then "      Container: " ++ a.container ++ "\n" else "") ++
    (match dictGet? a.annotations "description" with
     | some d => "      Description: " ++ pyTrunc d 150 ++ "\n"
     | none => "") ++
    (match dictGet? a.annotations "summary" with
     | some s => "      Summary: " ++ s ++ "\n"
     | none => "") ++
    (let shown := ["job", "service", "deployment", "statefulset"].filterMap fun lb =>
        match dictGet? a.labels lb with
        | some v => some (lb ++ "=" ++ v)
        | none => none
     if shown.isEmpty then ""
     else "      Labels: " ++ String.intercalate ", " shown ++ "\n") ++ "\n") ++
  (if p.2.length > 10 then
    "      ... and " ++ toString (p.2.length - 10) ++ " more instances\n\n"
   else "")

/-- Translation of `get_alert_details_multi_cluster(alert_name, cluster_filter)`. -/
def get_alert_details_multi_cluster (alert_name cluster_filter : String)
    (o : HttpOutcome) : String :=
  match o with
  | .connectError msg => "Error connecting to Karma: " ++ msg
  | .response code data =>
      if code = 200 then
        let matching := multiClusterMatches data alert_name cluster_filter
        let stats := foldClusterStats (matching.map fun r => (r.cluster, r.state))
        if matching.isEmpty then
          "No instances of alert \x27" ++ alert_name ++ "\x27 found" ++
            (if cluster_filter != "" then " in cluster \x27" ++ cluster_filter ++ "\x27"
             else " across all clusters")
        else
          let filter_text :=
            if cluster_filter != "" then " in cluster \x27" ++ cluster_filter ++ "\x27"
            else " (multi-cluster search)"
          let severity := match matching with | [] => "unknown" | r :: _ => r.severity
          let clusters_alerts := matching.foldl (fun d r =>
            dictUpsert d r.cluster (dictGetD d r.cluster [] ++ [r])) []
          let active_count := (matching.filter fun r => lowerStr r.state == "active").length
          let suppressed_count :=
            (matching.filter fun r => lowerStr r.state == "suppressed").length
          "Alert Details: \x27" ++ alert_name ++ "\x27" ++ filter_text ++ "\n" ++
            repeatStr "=" 60 ++ "\n\n" ++
            chartGlyph ++ " Summary:\n   Alert Name: " ++ alert_name ++
            "\n   Severity: " ++ severity ++
            "\n   Total Instances: " ++ toString matching.length ++
            "\n   Clusters Affected: " ++ toString stats.length ++ "\n\n" ++
            graphGlyph ++ " Cluster Breakdown:\n" ++
            String.join ((stats.insertionSort fun a b => a.1 ≤ b.1).map fun p =>
              "   " ++ p.1 ++ ": " ++ toString p.2.total ++ " instances (" ++
                toString p.2.active ++ " active, " ++ toString p.2.suppressed ++
                " suppressed)\n") ++ "\n" ++
            String.join ((clusters_alerts.insertionSort fun a b => a.1 ≤ b.1).map
              mcClusterBlock) ++
            clipboardGlyph ++ " Total: " ++ toString matching.length ++ " instance" ++
            pluralNe1 matching.length ++ " (" ++ toString active_count ++ " active, " ++
            toString suppressed_count ++ " suppressed) across " ++
            toString stats.length ++ " cluster" ++ pluralNe1 stats.length
      else "Error fetching alerts: code " ++ toString code

/-- The `container` label value of an alert as read by search_alerts_by_container:
`alert_labels_dict.get("container", "")`. -/
def containerValue (alert : Alert) : String :=
  dictGetD (labelsToDict alert.labels) "container" ""

/-- The match test of search_alerts_by_container:
`container_name.lower() in alert_container.lower()`. -/
def alertMatchesContainer (container_name : String) (alert : Alert) : Bool :=
  strContainsSub (lowerStr (containerValue alert)) (lowerStr container_name)

/-- One entry of `matching_alerts` in search_alerts_by_container. -/
structure ContainerRecord where
  alert_name : String
  container : String
  cluster : String
  state : String
  severity : String
  «namespace» : String
  «instance» : String
  pod : String
  starts_at : String
  alertmanager_name : String
deriving DecidableEq

/-- The record appended for one accepted (alert, source) iteration of
search_alerts_by_container. -/
def containerRecordOf (gdict : List (String × String)) (alertname : String)
    (alert : Alert) (am : AmSource) : ContainerRecord :=
  let adict := labelsToDict alert.labels
  { alert_name := alertname
    container := containerValue alert
    cluster := am.cluster.getD "unknown"
    state := alert.state.getD "unknown"
    severity := dictGetD gdict "severity" "unknown"
    «namespace» := dictGetD adict "namespace" "N/A"
    «instance» := dictGetD adict "instance" "N/A"
    pod := dictGetD adict "pod" "N/A"
    starts_at := alert.startsAt.getD "N/A"
    alertmanager_name := am.name.getD "N/A" }

/-- Records contributed by one alert in search_alerts_by_container: one for
the first source passing the cluster filter when the container matches (the
loop breaks after appending), none otherwise. -/
def containerAlertRecords (container_name cluster_filter : String)
    (gdict : List (String × String)) (alertname : String) (alert : Alert) :
    List ContainerRecord :=
  if alertMatchesContainer container_name alert then
    match firstPassingSource cluster_filter alert.alertmanager with
    | none => []
    | some am => [containerRecordOf gdict alertname alert am]
  else []

/-- The full `matching_alerts` list of search_alerts_by_container. -/
def containerMatches (data : Snapshot) (container_name cluster_filter : String) :
    List ContainerRecord :=
  data.grids.flatMap fun g => g.alertGroups.flatMap fun gr =>
    let gdict := labelsToDict gr.labels
    let alertname := dictGetD gdict "alertname" "unknown"
    gr.alerts.flatMap (containerAlertRecords container_name cluster_filter gdict alertname)

/-- One per-cluster section of the search_alerts_by_container output.
`containers_shown` is a Python set used only for membership and size; it is
modelled as a duplicate-free list. -/
def containerClusterBlock (p : String × List (String × List ContainerRecord)) : String :=
  buildingGlyph ++ "  Cluster: " ++ p.1 ++ "\n" ++ repeatStr "-" 40 ++ "\n" ++
  String.join ((p.2.insertionSort fun a b => a.1 ≤ b.1).map fun q =>
    let alerts := q.2
    let active_count := (alerts.filter fun a => lowerStr a.state == "active").length
    let suppressed_count := (alerts.filter fun a => lowerStr a.state == "suppressed").length
    let state_glyph := if active_count > 0 then fireGlyph else bellGlyph
    let folded := (alerts.take 8).foldl (fun (acc : List String × String) a =>
      let container_info := a.container ++ " (" ++ a.«namespace» ++ ")"
      if acc.1.contains container_info then acc
      else
        let state_icon := if lowerStr a.state == "active" then fireGlyph else bellGlyph
        (acc.1 ++ [container_info],
         acc.2 ++ "      " ++ state_icon ++ " Container: " ++ a.container ++ "\n" ++
           "         Namespace: " ++ a.«namespace» ++ "\n" ++
           (if a.pod != "N/A" then "         Pod: " ++ a.pod ++ "\n" else "") ++
           (if a.«instance» != "N/A" then "         Instance: " ++ a.«instance» ++ "\n"
            else "") ++ "\n")) ([], "")
    "  " ++ state_glyph ++ " " ++ q.1 ++ " (" ++ toString alerts.length ++ " instance" ++
      pluralS alerts.length ++ ")\n" ++
      "      Severity: " ++ (match alerts with | [] => "" | a :: _ => a.severity) ++ "\n" ++
      "      States: " ++ toString active_count ++ " active, " ++
      toString suppressed_count ++ " suppressed\n" ++
      folded.2 ++
      (if alerts.length > 8 then
        "      ... and " ++ toString (alerts.length - folded.1.length) ++ " more instances\n"
       else "")) ++ "\n"

/-- Translation of `search_alerts_by_container(container_name, cluster_filter)`. -/
def search_alerts_by_container (container_name cluster_filter : String)
    (o : HttpOutcome) : String :=
  match o with
  | .connectError msg => "Error connecting to Karma: " ++ msg
  | .response code data =>
      if code = 200 then
        let matching := containerMatches data container_name cluster_filter
        let stats := foldClusterStats (matching.map fun r => (r.cluster, r.state))
        if matching.isEmpty then
          "No alerts found for container \x27" ++ container_name ++ "\x27" ++
            (if cluster_filter != "" then " in cluster \x27" ++ cluster_filter ++ "\x27"
             else " across all clusters")
        else
          let filter_text :=
            if cluster_filter != "" then " in cluster \x27" ++ cluster_filter ++ "\x27"
            else " (multi-cluster search)"
          let clusters_alerts := matching.foldl (fun d r =>
            let inner := dictGetD d r.cluster []
            dictUpsert d r.cluster
              (dictUpsert inner r.alert_name (dictGetD inner r.alert_name [] ++ [r]))) []
          "Container Alert Search: \x27" ++ container_name ++ "\x27" ++ filter_text ++
            "\n" ++ repeatStr "=" 60 ++ "\n\n" ++
            chartGlyph ++ " Cluster Summary:\n" ++
            String.join ((stats.insertionSort fun a b => a.1 ≤ b.1).map fun p =>
              "   " ++ p.1 ++ ": " ++ toString p.2.total ++ " alerts (" ++
                toString p.2.active ++ " active, " ++ toString p.2.suppressed ++
                " suppressed)\n") ++ "\n" ++
            String.join ((clusters_alerts.insertionSort fun a b => a.1 ≤ b.1).map
              containerClusterBlock) ++
            clipboardGlyph ++ " Total: " ++ toString matching.length ++
            " alert instance" ++ pluralNe1 matching.length ++ " across " ++
            toString stats.length ++ " cluster" ++ pluralNe1 stats.length
      else "Error fetching alerts: code " ++ toString code

/-!
Spec-side definitions: these follow the wording of the specification /
claims (not the code) and are compared against the translated code above.
-/

/-- Spec-side: the value of the first label named `k`, when present. -/
def specFirstLabel (labels : List Label) (k : String) : Option String :=
  (labels.find? fun l => l.name == k).map Label.value

/-- Cluster names re-derived through the metadata extractor from every alert
of a snapshot (the re-derivation in the claim about filter_alerts_by_cluster). -/
def rederivedClusters (data : Snapshot) : List String :=
  (groupAlertPairs data).map fun p => (extract_alert_metadata p.1 p.2).cluster

/-- Spec-side (claim wording): the number of (alert, alertmanager-source)
pairs that pass the name and cluster filters of
get_alert_details_multi_cluster — the claim says each such pair yields one
match record. -/
def mcMatchingPairsSpec (data : Snapshot) (alert_name cluster_filter : String) : Nat :=
  (data.grids.flatMap fun g => g.alertGroups.flatMap fun gr =>
    let gdict := labelsToDict gr.labels
    if lowerStr (dictGetD gdict "alertname" "") == lowerStr alert_name then
      gr.alerts.flatMap fun a => a.alertmanager.filter fun am =>
        sourcePassesClusterFilter cluster_filter (am.cluster.getD "unknown")
    else []).length

/-- The number of alerts contributing a record to multiClusterMatches:
alerts of a name-matching group with at least one source passing the
cluster filter. -/
def mcMatchingAlertsCount (data : Snapshot) (alert_name cluster_filter : String) : Nat :=
  (data.grids.flatMap fun g => g.alertGroups.flatMap fun gr =>
    let gdict := labelsToDict gr.labels
    if lowerStr (dictGetD gdict "alertname" "") == lowerStr alert_name then
      gr.alerts.filter fun a => a.alertmanager.any fun am =>
        sourcePassesClusterFilter cluster_filter (am.cluster.getD "unknown")
    else []).length

/-- The number of alerts contributing a record to containerMatches:
container-matching alerts with at least one source passing the cluster
filter. -/
def containerMatchingAlertsCount (data : Snapshot)
    (container_name cluster_filter : String) : Nat :=
  (data.grids.flatMap fun g => g.alertGroups.flatMap fun gr =>
    gr.alerts.filter fun a =>
      alertMatchesContainer container_name a &&
        a.alertmanager.any fun am =>
          sourcePassesClusterFilter cluster_filter (am.cluster.getD "unknown")).length

/-- The raw state strings (`alert.get("state", "unknown")`) of every alert. -/
def allStatesList (data : Snapshot) : List String :=
  (groupAlertPairs data).map fun p => p.2.state.getD "unknown"

/-- The total count reported by get_alerts_by_state("active") (the length of
the record list list_active_alerts builds). -/
def activeAlertsCount (data : Snapshot) : Nat := (stateRecords "active" data).length

/-- The total count reported by get_alerts_by_state("suppressed"). -/
def suppressedAlertsCount (data : Snapshot) : Nat :=
  (stateRecords "suppressed" data).length

/-- The total count reported by get_alerts_by_state("all") via list_alerts. -/
def allAlertsCount (data : Snapshot) : Nat := (groupAlertPairs data).length

/-- The alert count reported by get_alerts_by_state for a given state
argument: `none` on the validation-failure branch, otherwise the count the
dispatched operation reports. -/
def by_state_count (state : String) (data : Snapshot) : Option Nat :=
  if validStates.contains (lowerStr state) = false then none
  else if lowerStr state = "active" then some (activeAlertsCount data)
  else if lowerStr state = "suppressed" then some (suppressedAlertsCount data)
  else some (allAlertsCount data)

/-- A snapshot with no grids and no upstream instances. -/
def emptySnapshot : Snapshot := { grids := [], upstreams := [] }

/-!
Concrete data used by counterexamples and witnesses.
-/

/-- A group whose labels carry no severity. -/
def c1Group : AlertGroup :=
  { id := none, labels := [{ name := "alertname", value := "TestAlert" }],
    alerts := [], totalAlerts := none }

/-- An alert with no labels at all. -/
def c1Alert : Alert :=
  { state := some "active", labels := [], annotations := [], startsAt := none,
    receiver := none, alertmanager := [] }

/-- A group whose labels carry severity "critical". -/
def c1wGroup : AlertGroup :=
  { id := none, labels := [{ name := "severity", value := "critical" }],
    alerts := [], totalAlerts := none }

/-- Wrap one list of alert groups as a one-grid snapshot (test-data helper). -/
def oneGridSnap (groups : List AlertGroup) (ups : List UpstreamInstance) : Snapshot :=
  { grids := [{ alertGroups := groups }], upstreams := ups }

/-- An alert carried by two alertmanager sources in different clusters. -/
def c2Alert : Alert :=
  { state := some "active", labels := [], annotations := [], startsAt := none,
    receiver := none,
    alertmanager := [{ cluster := some "c1", name := some "am1" },
                     { cluster := some "c2", name := some "am2" }] }

/-- The group named TestAlert holding c2Alert. -/
def c2Group : AlertGroup :=
  { id := none, labels := [{ name := "alertname", value := "TestAlert" }],
    alerts := [c2Alert], totalAlerts := none }

/-- A snapshot with one group named TestAlert holding c2Alert. -/
def c2Data : Snapshot := oneGridSnap [c2Group] []

/-- An alert whose only source sits in cluster "TEDDY" (upper case). -/
def c3Alert : Alert :=
  { state := some "active", labels := [], annotations := [], startsAt := none,
    receiver := none, alertmanager := [{ cluster := some "TEDDY", name := none }] }

/-- A snapshot holding just c3Alert. -/
def c3Data : Snapshot :=
  oneGridSnap [{ id := none, labels := [], alerts := [c3Alert], totalAlerts := none }] []

/-- An alert whose only source sits in cluster "x". -/
def c3wAlert : Alert :=
  { state := none, labels := [], annotations := [], startsAt := none,
    receiver := none, alertmanager := [{ cluster := some "x", name := none }] }

/-- A snapshot holding just c3wAlert. -/
def c3wData : Snapshot :=
  oneGridSnap [{ id := none, labels := [], alerts := [c3wAlert], totalAlerts := none }] []

/-- The grid filter_alerts_by_cluster produces from c3wData for "X". -/
def c3wGrid : Grid :=
  { alertGroups :=
      [{ id := none, labels := [], alerts := [c3wAlert], totalAlerts := some 1 }] }

/-- An upstream instance for cluster "alpha". -/
def c4Instance : UpstreamInstance :=
  { cluster := some "alpha", publicURI := none, version := none, error := none,
    name := none }

/-- An alert attributed to cluster "beta" (no upstream instance for it). -/
def c4Alert : Alert :=
  { state := some "active", labels := [], annotations := [], startsAt := none,
    receiver := none, alertmanager := [{ cluster := some "beta", name := none }] }

/-- A snapshot whose upstreams know "alpha" but whose alerts sit in "beta". -/
def c4Data : Snapshot :=
  oneGridSnap [{ id := none, labels := [], alerts := [c4Alert], totalAlerts := none }]
    [c4Instance]

/-- A snapshot with one upstream instance and no alerts. -/
def c4wUpstream : UpstreamInstance :=
  { cluster := some "a", publicURI := none, version := none, error := none,
    name := none }

/-- A snapshot with one upstream instance and no alerts (wraps c4wUpstream). -/
def c4wData : Snapshot := { grids := [], upstreams := [c4wUpstream] }

/-- The ClusterInfo record extract_cluster_info builds from c4wUpstream. -/
def c4wInfo : ClusterInfo :=
  { uri := "N/A", version := "N/A", status := "healthy", instance_name := "N/A" }

/-- An active alert (no sources needed). -/
def c6ActiveAlert : Alert :=
  { state := some "active", labels := [], annotations := [], startsAt := none,
    receiver := none, alertmanager := [] }

/-- A suppressed alert. -/
def c6SuppressedAlert : Alert :=
  { state := some "suppressed", labels := [], annotations := [], startsAt := none,
    receiver := none, alertmanager := [] }

/-- A snapshot with one active and one suppressed alert. -/
def c6Group : AlertGroup :=
  { id := none, labels := [{ name := "alertname", value := "A" }],
    alerts := [c6ActiveAlert, c6SuppressedAlert], totalAlerts := none }

/-- A snapshot with one active and one suppressed alert (wraps c6Group). -/
def c6Data : Snapshot := oneGridSnap [c6Group] []

/-- An alert with container label "NGINX-Container". -/
def nginxAlert : Alert :=
  { state := some "active",
    labels := [{ name := "container", value := "NGINX-Container" }],
    annotations := [], startsAt := none, receiver := none, alertmanager := [] }

/-- An alert with labels but none named "container". -/
def noContainerAlert : Alert :=
  { state := none, labels := [{ name := "app", value := "x" }], annotations := [],
    startsAt := none, receiver := none, alertmanager := [] }

/-- An alert whose only source sits in cluster "teddy-prod". -/
def prodAlert : Alert :=
  { state := some "active", labels := [], annotations := [], startsAt := none,
    receiver := none, alertmanager := [{ cluster := some "teddy-prod", name := none }] }

/-- A snapshot holding just prodAlert under group "A". -/
def c10Group : AlertGroup :=
  { id := none, labels := [{ name := "alertname", value := "A" }],
    alerts := [prodAlert], totalAlerts := none }

/-- A snapshot holding just prodAlert under group "A" (wraps c10Group). -/
def c10Data : Snapshot := oneGridSnap [c10Group] []

/-!
Helper lemmas.
-/

lemma data_append (a b : String) : (a ++ b).data = a.data ++ b.data := rfl

lemma append_ne_empty (a b : String) (h : a ≠ "") : a ++ b ≠ "" := by
  intro hc
  apply h
  apply String.ext
  have hd : a.data ++ b.data = [] := congrArg String.data hc
  exact (List.append_eq_nil.mp hd).1

lemma string_ne_empty_data {s : String} (h : s ≠ "") : s.data ≠ [] := by
  intro hc
  exact h (String.ext hc)

lemma listContainsSub_nil_needle (hay : List Char) : listContainsSub hay [] = true := by
  cases hay <;> simp [listContainsSub]

lemma listContainsSub_append_left (pre t n : List Char)
    (h : listContainsSub t n = true) : listContainsSub (pre ++ t) n = true := by
  induction pre with
  | nil => simpa using h
  | cons c cs ih => simp [listContainsSub, ih]

lemma strContainsSub_append_right (a b n : String) (h : strContainsSub b n = true) :
    strContainsSub (a ++ b) n = true := by
  show listContainsSub ((a ++ b).data) n.data = true
  rw [data_append]
  exact listContainsSub_append_left a.data b.data n.data h

lemma dictGet?_upsert_other {α : Type} (d : List (String × α)) (k0 k : String) (v : α)
    (h : k0 ≠ k) : dictGet? (dictUpsert d k0 v) k = dictGet? d k := by
  induction d with
  | nil => simp [dictUpsert, dictGet?, h]
  | cons p rest ih =>
      by_cases hp : p.1 = k0
      · simp [dictUpsert, hp, dictGet?, h]
      · simp [dictUpsert, hp, dictGet?, ih]

lemma labelsToDict_absent_aux (ls : List Label) (k : String)
    (acc : List (String × String)) (hacc : dictGet? acc k = none)
    (h : ∀ l ∈ ls, l.name ≠ k) :
    dictGet? (ls.foldl (fun d l => dictUpsert d l.name l.value) acc) k = none := by
  induction ls generalizing acc with
  | nil => simpa using hacc
  | cons l rest ih =>
      simp only [List.foldl_cons]
      apply ih
      · rw [dictGet?_upsert_other _ _ _ _ (h l (by simp))]
        exact hacc
      · intro x hx
        exact h x (by simp [hx])

lemma labelsToDict_absent (ls : List Label) (k : String)
    (h : ∀ l ∈ ls, l.name ≠ k) : dictGet? (labelsToDict ls) k = none :=
  labelsToDict_absent_aux ls k [] rfl h

lemma flatMap_length_congr {α β γ : Type} (l : List α) (f : α → List β) (g : α → List γ)
    (h : ∀ x ∈ l, (f x).length = (g x).length) :
    (l.flatMap f).length = (l.flatMap g).length := by
  induction l with
  | nil => rfl
  | cons a t ih =>
      simp only [List.flatMap_cons, List.length_append]
      rw [h a (by simp), ih (fun x hx => h x (by simp [hx]))]

lemma flatMap_singleton_if_length {α β : Type} (l : List α) (f : α → List β)
    (p : α → Bool) (h : ∀ a, (f a).length = if p a then 1 else 0) :
    (l.flatMap f).length = (l.filter p).length := by
  induction l with
  | nil => rfl
  | cons a t ih =>
      simp only [List.flatMap_cons, List.length_append, List.filter_cons]
      by_cases hp : p a = true
      · simp [hp, h a, ih, Nat.add_comm]
      · simp [hp, h a, ih]

lemma flatMap_length_add {α β γ δ : Type} (l : List α)
    (k : α → List β) (f : α → List γ) (g : α → List δ)
    (h : ∀ x ∈ l, (k x).length = (f x).length + (g x).length) :
    (l.flatMap k).length = (l.flatMap f).length + (l.flatMap g).length := by
  induction l with
  | nil => rfl
  | cons a t ih =>
      simp only [List.flatMap_cons, List.length_append]
      rw [h a (by simp), ih (fun x hx => h x (by simp [hx]))]
      omega

lemma filter_length_partition {α : Type} (l : List α) (p q : α → Bool)
    (h1 : ∀ x ∈ l, p x = true ∨ q x = true)
    (h2 : ∀ x ∈ l, ¬(p x = true ∧ q x = true)) :
    l.length = (l.filter p).length + (l.filter q).length := by
  induction l with
  | nil => rfl
  | cons a t ih =>
      have iht := ih (fun x hx => h1 x (by simp [hx])) (fun x hx => h2 x (by simp [hx]))
      simp only [List.length_cons, List.filter_cons]
      rcases h1 a (by simp) with hp | hq
      · have hq' : q a ≠ true := fun hq => h2 a (by simp) ⟨hp, hq⟩
        simp [hp, hq', iht]
        omega
      · have hp' : p a ≠ true := fun hp => h2 a (by simp) ⟨hp, hq⟩
        simp [hp', hq, iht]
        omega

lemma extract_label_value_eq_spec (ls : List Label) (k d : String) :
    extract_label_value ls k d = (specFirstLabel ls k).getD d := by
  induction ls with
  | nil => rfl
  | cons l rest ih =>
      by_cases h : l.name = k
      · simp [extract_label_value, specFirstLabel, List.find?_cons, h]
      · simp [extract_label_value, specFirstLabel, List.find?_cons, h] at ih ⊢
        exact ih

lemma firstPassingSource_isSome (filt : String) (ams : List AmSource) :
    (firstPassingSource filt ams).isSome =
      ams.any fun am => sourcePassesClusterFilter filt (am.cluster.getD "unknown") := by
  induction ams with
  | nil => rfl
  | cons am rest ih =>
      by_cases h : sourcePassesClusterFilter filt (am.cluster.getD "unknown") = true
      · simp [firstPassingSource, h]
      · simp [firstPassingSource, h, ih]

lemma mcAlertRecords_length (filt : String) (gdict : List (String × String)) (a : Alert) :
    (mcAlertRecords filt gdict a).length =
      if a.alertmanager.any fun am =>
          sourcePassesClusterFilter filt (am.cluster.getD "unknown")
      then 1 else 0 := by
  rw [← firstPassingSource_isSome]
  unfold mcAlertRecords
  cases h : firstPassingSource filt a.alertmanager <;> simp [h]

lemma containerAlertRecords_length (q filt : String) (gdict : List (String × String))
    (an : String) (a : Alert) :
    (containerAlertRecords q filt gdict an a).length =
      if alertMatchesContainer q a &&
          (a.alertmanager.any fun am =>
            sourcePassesClusterFilter filt (am.cluster.getD "unknown"))
      then 1 else 0 := by
  unfold containerAlertRecords
  by_cases hm : alertMatchesContainer q a = true
  · rw [← firstPassingSource_isSome]
    cases h : firstPassingSource filt a.alertmanager <;> simp [hm, h]
  · simp [hm]


lemma extract_label_value_of_filter_singleton (L : List Label) (K d : String)
    (l0 : Label) (h : L.filter (fun l => l.name == K) = [l0]) :
    extract_label_value L K d = l0.value := by
  induction L with
  | nil => simp at h
  | cons l rest ih =>
      rw [List.filter_cons] at h
      by_cases hl : l.name = K
      · simp only [hl, beq_self_eq_true, if_true] at h
        obtain ⟨rfl, -⟩ := List.cons_eq_cons.mp h
        simp [extract_label_value, hl]
      · have : (l.name == K) = false := by simp [hl]
        rw [this] at h
        simp only [Bool.false_eq_true, if_false] at h
        simp only [extract_label_value, hl, if_false]
        exact ih h

lemma extract_label_value_of_absent (L : List Label) (K d : String)
    (h : ∀ l ∈ L, l.name ≠ K) : extract_label_value L K d = d := by
  induction L with
  | nil => rfl
  | cons l rest ih =>
      simp only [extract_label_value, h l (by simp), if_false]
      exact ih fun x hx => h x (by simp [hx])

/-- Claim C5: when key K names exactly one pair of L, extract_label_value
returns the value of that pair; when no pair of L is named K (case-sensitively),
it returns exactly the default. -/
theorem claim5 :
    (∀ (L : List Label) (K d : String) (l0 : Label),
        L.filter (fun l => l.name == K) = [l0] →
        extract_label_value L K d = l0.value) ∧
    (∀ (L : List Label) (K d : String),
        (∀ l ∈ L, l.name ≠ K) → extract_label_value L K d = d) :=
  ⟨fun L K d l0 h => extract_label_value_of_filter_singleton L K d l0 h,
   fun L K d h => extract_label_value_of_absent L K d h⟩

/-- Witness for claim C5 at concrete label lists. -/
theorem claim5_witness :
    extract_label_value [{ name := "severity", value := "critical" }]
        "severity" "unknown" = "critical" ∧
    extract_label_value [{ name := "a", value := "b" }] "k" "dflt" = "dflt" :=
  ⟨claim5.1 [{ name := "severity", value := "critical" }] "severity" "unknown"
      { name := "severity", value := "critical" } (by decide),
   claim5.2 [{ name := "a", value := "b" }] "k" "dflt" (by decide)⟩

lemma metadata_severity (g : AlertGroup) (a : Alert) :
    (extract_alert_metadata g a).severity =
      if (specFirstLabel g.labels "severity").getD "unknown" = "unknown"
      then (specFirstLabel a.labels "severity").getD "none"
      else (specFirstLabel g.labels "severity").getD "unknown" := by
  show (if extract_label_value g.labels "severity" "unknown" = "unknown"
        then extract_label_value a.labels "severity" "none"
        else extract_label_value g.labels "severity" "unknown") = _
  rw [extract_label_value_eq_spec, extract_label_value_eq_spec]

/-- Claim C1 (amended): the metadata severity is the group-level severity
label value when that label is present with a value other than "unknown";
otherwise the alert-level severity label value when that label is present;
otherwise "none". -/
theorem claim1 (g : AlertGroup) (a : Alert) :
    (∀ v, specFirstLabel g.labels "severity" = some v → v ≠ "unknown" →
        (extract_alert_metadata g a).severity = v) ∧
    ((specFirstLabel g.labels "severity" = none ∨
        specFirstLabel g.labels "severity" = some "unknown") →
      (∀ v, specFirstLabel a.labels "severity" = some v →
          (extract_alert_metadata g a).severity = v) ∧
      (specFirstLabel a.labels "severity" = none →
          (extract_alert_metadata g a).severity = "none")) := by
  constructor
  · intro v hv hne
    rw [metadata_severity, hv]
    simp [hne]
  · intro hg
    constructor
    · intro v hv
      rw [metadata_severity, hv]
      rcases hg with h | h <;> rw [h] <;> simp
    · intro ha
      rw [metadata_severity, ha]
      rcases hg with h | h <;> rw [h] <;> simp

/-- Counterexample to claim C1 as stated: with no severity label on either
the group or the alert, the extractor yields "none", not the claimed
"unknown". -/
theorem claim1_counterexample :
    (extract_alert_metadata c1Group c1Alert).severity = "none" ∧
    ("none" : String) ≠ "unknown" ∧
    (∀ l ∈ c1Group.labels, l.name ≠ "severity") ∧
    (∀ l ∈ c1Alert.labels, l.name ≠ "severity") := by decide

/-- Witness for claim C1 at a group carrying severity "critical". -/
theorem claim1_witness :
    (extract_alert_metadata c1wGroup c1Alert).severity = "critical" :=
  (claim1 c1wGroup c1Alert).1 "critical" (by decide) (by decide)

/-- Claim C9: an alert without a container label reads as the empty string
and never matches a non-empty query; the match test is a case-insensitive
substring test, so "nginx" matches container "NGINX-Container". -/
theorem claim9 :
    (∀ (a : Alert) (q : String), (∀ l ∈ a.labels, l.name ≠ "container") →
        containerValue a = "" ∧ (q ≠ "" → alertMatchesContainer q a = false)) ∧
    alertMatchesContainer "nginx" nginxAlert = true ∧
    containerValue nginxAlert = "NGINX-Container" := by
  refine ⟨?_, by decide, by decide⟩
  intro a q h
  have hcv : containerValue a = "" := by
    unfold containerValue dictGetD
    rw [labelsToDict_absent a.labels "container" h]
    rfl
  refine ⟨hcv, fun hq => ?_⟩
  unfold alertMatchesContainer
  rw [hcv]
  show listContainsSub (lowerStr "").data (lowerStr q).data = false
  have hd : (lowerStr q).data ≠ [] := by
    show q.data.map Char.toLower ≠ []
    simpa using string_ne_empty_data hq
  show listContainsSub [] (lowerStr q).data = false
  unfold listContainsSub
  cases hval : (lowerStr q).data with
  | nil => exact absurd hval hd
  | cons c cs => rfl

/-- Witness for claim C9 at an alert with no container label. -/
theorem claim9_witness :
    containerValue noContainerAlert = "" ∧
    alertMatchesContainer "nginx" noContainerAlert = false :=
  ⟨(claim9.1 noContainerAlert "nginx" (by decide)).1,
   (claim9.1 noContainerAlert "nginx" (by decide)).2 (by decide)⟩

lemma sourcePasses_eq (f c : String) :
    sourcePassesClusterFilter f c = strContainsSub (lowerStr c) (lowerStr f) := by
  unfold sourcePassesClusterFilter
  by_cases hf : f = ""
  · subst hf
    have hrhs : strContainsSub (lowerStr c) (lowerStr "") = true :=
      listContainsSub_nil_needle (lowerStr c).data
    rw [hrhs]
    rfl
  · have hne : (f != "") = true := by simpa using hf
    rw [hne]
    simp [Bool.not_not]

lemma sourcePasses_empty (c : String) : sourcePassesClusterFilter "" c = true := by
  rw [sourcePasses_eq]
  exact listContainsSub_nil_needle (lowerStr c).data

/-- Claim C10: the optional cluster_filter of the two search operations
keeps a source iff the filter, lowercased, is a substring of the cluster
name of the source, lowercased; an empty filter keeps every source.  This differs
from the exact-match semantics of filter_alerts_by_cluster: the filter
"prod" passes a source in cluster "teddy-prod" (and the search keeps the
alert) while the dedicated cluster filter rejects the same alert. -/
theorem claim10 :
    (∀ cluster_filter cluster : String,
        sourcePassesClusterFilter cluster_filter cluster =
          strContainsSub (lowerStr cluster) (lowerStr cluster_filter)) ∧
    (∀ cluster : String, sourcePassesClusterFilter "" cluster = true) ∧
    sourcePassesClusterFilter "prod" "teddy-prod" = true ∧
    alertMatchesCluster "prod" prodAlert = false ∧
    (multiClusterMatches c10Data "A" "prod").length = 1 ∧
    (groupAlertPairs (filter_alerts_by_cluster c10Data "prod")).length = 0 :=
  ⟨sourcePasses_eq, sourcePasses_empty, by decide, by decide, by decide, by decide⟩

lemma invalidStateMsg_contains (s : String) :
    strContainsSub (invalidStateMsg s) "active" = true ∧
    strContainsSub (invalidStateMsg s) "suppressed" = true ∧
    strContainsSub (invalidStateMsg s) "all" = true := by
  unfold invalidStateMsg
  exact ⟨strContainsSub_append_right _ _ _ (by decide),
    strContainsSub_append_right _ _ _ (by decide),
    strContainsSub_append_right _ _ _ (by decide)⟩

lemma invalidStateMsg_ne_empty (s : String) : invalidStateMsg s ≠ "" := by
  unfold invalidStateMsg
  exact append_ne_empty _ _ (append_ne_empty _ _ (append_ne_empty _ _ (by decide)))

/-- Claim C7: any state not (case-insensitively) among active / suppressed /
all makes get_alerts_by_state return the validation message — independently
of the HTTP outcome, i.e. before any fetch — and that message names all
three valid options and is not empty. -/
theorem claim7 (state : String)
    (h : validStates.contains (lowerStr state) = false) :
    (∀ o : HttpOutcome, get_alerts_by_state state o = invalidStateMsg state) ∧
    strContainsSub (invalidStateMsg state) "active" = true ∧
    strContainsSub (invalidStateMsg state) "suppressed" = true ∧
    strContainsSub (invalidStateMsg state) "all" = true ∧
    invalidStateMsg state ≠ "" := by
  refine ⟨?_, (invalidStateMsg_contains state).1, (invalidStateMsg_contains state).2.1,
    (invalidStateMsg_contains state).2.2, invalidStateMsg_ne_empty state⟩
  intro o
  unfold get_alerts_by_state
  rw [if_pos h]

/-- Witness for claim C7 at the state "bogus". -/
theorem claim7_witness :
    get_alerts_by_state "bogus" (.connectError "x") = invalidStateMsg "bogus" ∧
    strContainsSub (invalidStateMsg "bogus") "suppressed" = true :=
  ⟨(claim7 "bogus" (by decide)).1 (.connectError "x"),
   (claim7 "bogus" (by decide)).2.2.1⟩

/-- Claim C2 (amended): in both search operations an alert contributes at
most one match record — the one of the first alertmanager source passing
the cluster filter — so the number of records equals the number of
filter-passing matching alerts, not the number of (alert, source) pairs. -/
theorem claim2 (data : Snapshot) (alert_name cluster_filter container_name : String) :
    (multiClusterMatches data alert_name cluster_filter).length =
      mcMatchingAlertsCount data alert_name cluster_filter ∧
    (containerMatches data container_name cluster_filter).length =
      containerMatchingAlertsCount data container_name cluster_filter := by
  constructor
  · unfold multiClusterMatches mcMatchingAlertsCount
    apply flatMap_length_congr
    intro g _
    apply flatMap_length_congr
    intro gr _
    by_cases h : (lowerStr (dictGetD (labelsToDict gr.labels) "alertname" "") ==
        lowerStr alert_name) = true
    · simp only [h, if_true]
      exact flatMap_singleton_if_length _ _ _
        (mcAlertRecords_length cluster_filter (labelsToDict gr.labels))
    · simp [h]
  · unfold containerMatches containerMatchingAlertsCount
    apply flatMap_length_congr
    intro g _
    apply flatMap_length_congr
    intro gr _
    exact flatMap_singleton_if_length _ _ _
      (containerAlertRecords_length container_name cluster_filter
        (labelsToDict gr.labels) (dictGetD (labelsToDict gr.labels) "alertname" "unknown"))

/-- Counterexample to claim C2 as stated: an alert carried by two sources
that both pass an empty cluster filter contributes one record, not two. -/
theorem claim2_counterexample :
    (multiClusterMatches c2Data "TestAlert" "").length = 1 ∧
    mcMatchingPairsSpec c2Data "TestAlert" "" = 2 ∧
    (multiClusterMatches c2Data "TestAlert" "").length ≠
      mcMatchingPairsSpec c2Data "TestAlert" "" := by decide

/-- Claim C3 (amended): filtering by cluster keeps only alerts with at least
one alertmanager source whose cluster matches case-insensitively and drops
every group (and grid) left empty; but the re-derived cluster name of a
surviving alert is its first cluster-bearing source and need not equal the
filter argument. -/
theorem claim3 (data : Snapshot) (c : String) :
    ∀ grid ∈ (filter_alerts_by_cluster data c).grids,
      grid.alertGroups ≠ [] ∧
      ∀ gr ∈ grid.alertGroups, gr.alerts ≠ [] ∧
        ∀ a ∈ gr.alerts, alertMatchesCluster c a = true ∧
          ∃ am ∈ a.alertmanager, lowerStr (am.cluster.getD "") = lowerStr c := by
  intro grid hgrid
  unfold filter_alerts_by_cluster at hgrid
  simp only [List.mem_filterMap] at hgrid
  obtain ⟨g0, _, heq⟩ := hgrid
  by_cases he : (g0.alertGroups.filterMap fun group =>
      if (group.alerts.filter (alertMatchesCluster c)).isEmpty then none
      else some { group with
                    alerts := group.alerts.filter (alertMatchesCluster c)
                    totalAlerts := some (group.alerts.filter (alertMatchesCluster c)).length }).isEmpty
  · rw [if_pos he] at heq
    exact absurd heq (by simp)
  · rw [if_neg he] at heq
    obtain rfl := Option.some.inj heq
    constructor
    · simpa [List.isEmpty_iff] using he
    · intro gr hgr
      simp only [List.mem_filterMap] at hgr
      obtain ⟨group0, _, heq2⟩ := hgr
      by_cases he2 : (group0.alerts.filter (alertMatchesCluster c)).isEmpty
      · rw [if_pos he2] at heq2
        exact absurd heq2 (by simp)
      · rw [if_neg he2] at heq2
        obtain rfl := Option.some.inj heq2
        constructor
        · simpa [List.isEmpty_iff] using he2
        · intro a ha
          have hmem := List.mem_filter.mp ha
          refine ⟨hmem.2, ?_⟩
          obtain ⟨am, ham, hb⟩ := List.any_eq_true.mp hmem.2
          exact ⟨am, ham, by simpa using hb⟩

/-- Counterexample to claim C3 as stated: filtering by "teddy" keeps the
alert whose source cluster is "TEDDY", and re-deriving its cluster name
yields "TEDDY", which is not an element of {"teddy"}. -/
theorem claim3_counterexample :
    rederivedClusters (filter_alerts_by_cluster c3Data "teddy") = ["TEDDY"] ∧
    ("TEDDY" : String) ≠ "teddy" := by decide

/-- Witness for claim C3: the surviving grid of a concrete filtered
snapshot has a non-empty group list. -/
theorem claim3_witness : c3wGrid.alertGroups ≠ [] :=
  (claim3 c3wData "X" c3wGrid (by decide)).1

/-- Claim C4 (amended): list_clusters enumerates exactly the clusters of
upstreams.instances (joined to the alert counts by name equality), showing
0 for a cluster with no counted alerts; a cluster present only in the
alert counts gets no entry of its own. -/
theorem claim4 (data : Snapshot) :
    ((list_clusters_entries data).map fun e => (e.1, e.2.1)).Perm
        (extract_cluster_info data).1 ∧
    (∀ e ∈ list_clusters_entries data,
        e.2.2 = dictGetD (extract_cluster_info data).2 e.1 0) ∧
    (∀ e ∈ list_clusters_entries data,
        dictGet? (extract_cluster_info data).2 e.1 = none → e.2.2 = 0) := by
  refine ⟨?_, ?_, ?_⟩
  · show ((((extract_cluster_info data).1.insertionSort fun a b => a.1 ≤ b.1).map
        fun p => (p.1, p.2, dictGetD (extract_cluster_info data).2 p.1 0)).map
          fun e => (e.1, e.2.1)).Perm (extract_cluster_info data).1
    rw [List.map_map]
    rw [show ((fun e : String × ClusterInfo × Nat => (e.1, e.2.1)) ∘
        fun p : String × ClusterInfo =>
          (p.1, p.2, dictGetD (extract_cluster_info data).2 p.1 0)) = id from
      funext fun p => rfl]
    rw [List.map_id]
    exact List.perm_insertionSort _ _
  · intro e he
    simp only [list_clusters_entries, List.mem_map] at he
    obtain ⟨p, hp, rfl⟩ := he
    rfl
  · intro e he hn
    simp only [list_clusters_entries, List.mem_map] at he
    obtain ⟨p, hp, rfl⟩ := he
    show dictGetD (extract_cluster_info data).2 p.1 0 = 0
    unfold dictGetD
    rw [hn]
    rfl

/-- Counterexample to claim C4 as stated: cluster "beta" occurs in the
per-source alert counts but has no upstream instance, and it gets no entry
in the list_clusters enumeration. -/
theorem claim4_counterexample :
    dictGet? (extract_cluster_info c4Data).2 "beta" = some 1 ∧
    (∀ e ∈ list_clusters_entries c4Data, e.1 ≠ "beta") ∧
    (list_clusters_entries c4Data).map (fun e => e.1) = ["alpha"] := by decide

/-- Witness for claim C4 at a one-instance snapshot. -/
theorem claim4_witness :
    (("a", c4wInfo, (0 : Nat)) : String × ClusterInfo × Nat).2.2 =
      dictGetD (extract_cluster_info c4wData).2 "a" 0 :=
  (claim4 c4wData).2.1 _ (by decide)

lemma mem_groupAlertPairs {data : Snapshot} {g : Grid} {gr : AlertGroup} {a : Alert}
    (hg : g ∈ data.grids) (hgr : gr ∈ g.alertGroups) (ha : a ∈ gr.alerts) :
    (gr, a) ∈ groupAlertPairs data := by
  unfold groupAlertPairs
  refine List.mem_flatMap.mpr ⟨g, hg, ?_⟩
  refine List.mem_flatMap.mpr ⟨gr, hgr, ?_⟩
  exact List.mem_map.mpr ⟨a, ha, rfl⟩

lemma all_eq_active_add_suppressed (data : Snapshot)
    (h : ∀ s ∈ allStatesList data, s = "active" ∨ s = "suppressed") :
    allAlertsCount data = activeAlertsCount data + suppressedAlertsCount data := by
  unfold allAlertsCount activeAlertsCount suppressedAlertsCount groupAlertPairs
    stateRecords
  apply flatMap_length_add
  intro g hg
  apply flatMap_length_add
  intro gr hgr
  simp only [List.length_map]
  apply filter_length_partition
  · intro a ha
    have hs := h (a.state.getD "unknown")
      (List.mem_map.mpr ⟨(gr, a), mem_groupAlertPairs hg hgr ha, rfl⟩)
    rcases hs with h1 | h1
    · left
      rw [h1]
      decide
    · right
      rw [h1]
      decide
  · intro a ha hb
    have hs := h (a.state.getD "unknown")
      (List.mem_map.mpr ⟨(gr, a), mem_groupAlertPairs hg hgr ha, rfl⟩)
    rcases hs with h1 | h1 <;> rw [h1] at hb <;> revert hb <;> decide

/-- Claim C6: when the state of every alert is exactly "active" or "suppressed",
the count reported by get_alerts_by_state("all") is the sum of the counts
reported by get_alerts_by_state("active") and get_alerts_by_state("suppressed"). -/
theorem claim6 (data : Snapshot)
    (h : ∀ s ∈ allStatesList data, s = "active" ∨ s = "suppressed") :
    by_state_count "all" data =
      some (activeAlertsCount data + suppressedAlertsCount data) ∧
    by_state_count "active" data = some (activeAlertsCount data) ∧
    by_state_count "suppressed" data = some (suppressedAlertsCount data) := by
  refine ⟨?_, rfl, rfl⟩
  rw [show by_state_count "all" data = some (allAlertsCount data) from rfl,
    all_eq_active_add_suppressed data h]

/-- Witness for claim C6 at a snapshot with one active and one suppressed
alert. -/
theorem claim6_witness :
    by_state_count "all" c6Data =
      some (activeAlertsCount c6Data + suppressedAlertsCount c6Data) :=
  (claim6 c6Data (by decide)).1

/-- Claim C8: the fetch boundary converts a connection/parse failure into
the prefixed "Error connecting to Karma" string and a non-200 status into
the "Error fetching alerts: code N" string (never raising, by totality of
the model), and on an empty snapshot every exposed operation returns a
non-empty sentence. -/
theorem claim8 :
    (∀ msg : String,
        fetch_karma_alerts (.connectError msg) =
          .error ("Error connecting to Karma: " ++ msg) ∧
        list_alerts (.connectError msg) = "Error connecting to Karma: " ++ msg ∧
        list_active_alerts (.connectError msg) = "Error connecting to Karma: " ++ msg ∧
        list_suppressed_alerts (.connectError msg) =
          "Error connecting to Karma: " ++ msg ∧
        (∀ n f : String,
            get_alert_details_multi_cluster n f (.connectError msg) =
              "Error connecting to Karma: " ++ msg ∧
            search_alerts_by_container n f (.connectError msg) =
              "Error connecting to Karma: " ++ msg)) ∧
    (∀ (code : Nat) (body : Snapshot), code ≠ 200 →
        fetch_karma_alerts (.response code body) =
          .error ("Error fetching alerts: code " ++ toString code) ∧
        list_active_alerts (.response code body) =
          "Error fetching alerts: code " ++ toString code) ∧
    (∀ ho : HealthOutcome, check_karma ho ≠ "") ∧
    (∀ cn an n f s : String,
        list_alerts (.response 200 emptySnapshot) ≠ "" ∧
        get_alerts_summary (.response 200 emptySnapshot) ≠ "" ∧
        list_clusters (.response 200 emptySnapshot) ≠ "" ∧
        list_alerts_by_cluster cn (.response 200 emptySnapshot) ≠ "" ∧
        get_alert_details an (.response 200 emptySnapshot) ≠ "" ∧
        list_active_alerts (.response 200 emptySnapshot) ≠ "" ∧
        list_suppressed_alerts (.response 200 emptySnapshot) ≠ "" ∧
        get_alerts_by_state s (.response 200 emptySnapshot) ≠ "" ∧
        get_alert_details_multi_cluster n f (.response 200 emptySnapshot) ≠ "" ∧
        search_alerts_by_container n f (.response 200 emptySnapshot) ≠ "") := by
  refine ⟨?_, ?_, ?_, ?_⟩
  · intro msg
    exact ⟨rfl, rfl, rfl, rfl, fun n f => ⟨rfl, rfl⟩⟩
  · intro code body hc
    constructor
    · simp only [fetch_karma_alerts]
      rw [if_pos hc]
    · simp only [list_active_alerts]
      rw [if_neg hc]
  · intro ho
    cases ho with
    | connectError m =>
        show ballotX ++ " Error connecting to Karma: " ++ m ≠ ""
        exact append_ne_empty _ _ (by decide)
    | response code =>
        show (if code = 200 then checkMark ++ " Karma is running at " ++ KARMA_URL
              else warnSign ++ " Karma responded with code " ++ toString code) ≠ ""
        by_cases h : code = 200
        · rw [if_pos h]
          decide
        · rw [if_neg h]
          exact append_ne_empty _ _ (by decide)
  · intro cn an n f s
    refine ⟨by decide, by decide, by decide, ?_, ?_, by decide, by decide, ?_, ?_, ?_⟩
    · show ("No active alerts" : String) ≠ ""
      decide
    · show ("No active alerts" : String) ≠ ""
      decide
    · unfold get_alerts_by_state
      split
      · exact invalidStateMsg_ne_empty s
      · split
        · decide
        · split
          · decide
          · decide
    · show "No instances of alert \x27" ++ n ++ "\x27 found" ++
          (if f != "" then " in cluster \x27" ++ f ++ "\x27"
           else " across all clusters") ≠ ""
      exact append_ne_empty _ _ (append_ne_empty _ _ (append_ne_empty _ _ (by decide)))
    · show "No alerts found for container \x27" ++ n ++ "\x27" ++
          (if f != "" then " in cluster \x27" ++ f ++ "\x27"
           else " across all clusters") ≠ ""
      exact append_ne_empty _ _ (append_ne_empty _ _ (append_ne_empty _ _ (by decide)))

/-- Witness for claim C8 at status code 500. -/
theorem claim8_witness :
    fetch_karma_alerts (.response 500 emptySnapshot) =
      .error ("Error fetching alerts: code " ++ toString 500) ∧
    list_active_alerts (.response 500 emptySnapshot) =
      "Error fetching alerts: code " ++ toString 500 :=
  claim8.2.1 500 emptySnapshot (by decide)

end Karma
